import Mathlib

/-!
Verification of the session-lifecycle supervisor and delivery queue of the
wa-api gateway (server.js). The JavaScript source is shallowly embedded:
the promise attached to each queued send task becomes a settle-once cell
(`Settlement`), the drain loop `processMessageQueue` becomes a recursive
function over the task list that also records every externally visible
action (sendMessage invocations, resolve/reject calls, recoverSession
calls), and the timer-driven pieces (message timeout, health-check tick,
retry backoff) become explicit functions of the state they read.
-/

namespace WaApi

/-- Identifier part of a message result returned by the automation library.
The benign-error placeholder stores a null id, embedded as `none`. -/
structure MsgId where
  id : Option String
deriving DecidableEq, Repr

/-- Result of a successful (or masked) sendMessage: an id and a timestamp. -/
structure MsgResult where
  id : MsgId
  timestamp : Nat
deriving DecidableEq, Repr

/-- State of the promise returned by queueMessage. A JavaScript promise is a
settle-once cell: the first resolve or reject wins and later calls are
no-ops. `pending` is the state before any settlement. -/
inductive Settlement where
  | pending
  | success (r : MsgResult)
  | failure (e : String)
deriving DecidableEq, Repr

/-- Settle-once semantics of the promise cell: a settle attempt with outcome
`o` changes the cell only when it is still pending. -/
def settleWith (s : Settlement) (o : Settlement) : Settlement :=
  match s with
  | .pending => o
  | s => s

/-- The three call sites that settle the promise of a queued task in
server.js: resolve from the drain loop on successful dispatch, reject from
the drain loop on a dispatch error, and reject from the 120s timer armed by
queueMessage. -/
inductive TaskEvent where
  | dispatchSuccess (r : MsgResult)
  | dispatchFailure (e : String)
  | deadlineExpiry
deriving DecidableEq, Repr

/-- The settlement value each settle call site carries: the timer rejects
with the fixed message used at line 174 of server.js. -/
def outcomeOf : TaskEvent → Settlement
  | .dispatchSuccess r => .success r
  | .dispatchFailure e => .failure e
  | .deadlineExpiry => .failure "Message sending timeout"

/-- Apply a settle attempt for one event to the promise cell. -/
def settleEvent (s : Settlement) (ev : TaskEvent) : Settlement :=
  settleWith s (outcomeOf ev)

/-- Run a sequence of settle attempts, in the order the event loop delivers
them, against the promise cell. -/
def runEvents (s : Settlement) (evs : List TaskEvent) : Settlement :=
  evs.foldl settleEvent s

/-- Number of settle attempts in `evs` that actually change the cell. -/
def settleCount : Settlement → List TaskEvent → Nat
  | _, [] => 0
  | .pending, ev :: evs => 1 + settleCount (outcomeOf ev) evs
  | .success r, _ :: evs => settleCount (.success r) evs
  | .failure e, _ :: evs => settleCount (.failure e) evs

/-- One pending send task as built by queueMessage: recipient chat id,
message body, enqueue timestamp, and the promise cell wired to the resolve
and reject closures. -/
structure MessageTask where
  chatId : String
  message : String
  timestamp : Nat
  settlement : Settlement
deriving DecidableEq, Repr

/-- Timeout armed by queueMessage for every enqueued task (2 minutes). -/
def messageTimeoutMs : Nat := 120000

/-- queueMessage pushes a fresh task (promise still pending) onto the tail
of the queue. The drain call and timer arming are modelled separately. -/
def queueMessage (chatId message : String) (nowTs : Nat) (q : List MessageTask) :
    List MessageTask :=
  q ++ [{ chatId := chatId, message := message, timestamp := nowTs, settlement := .pending }]

/-- Firing of the 120s timer: a reject attempt with the timeout reason,
a no-op on an already settled cell. -/
def deadlineExpire (s : Settlement) : Settlement :=
  settleWith s (.failure "Message sending timeout")

/-- Boolean substring test embedding the JavaScript String.prototype.includes
calls used to classify dispatch errors. -/
def strContains (s pat : String) : Bool := decide (pat.data <:+: s.data)

/-- Placeholder result synthesized at line 161 of server.js when the benign
markedUnread error is masked: a null message id and a locally generated
timestamp. -/
def maskedPlaceholder (nowTs : Nat) : MsgResult :=
  { id := { id := none }, timestamp := nowTs }

/-- Raw outcome of the client.sendMessage call inside messageTask.execute:
either the library delivers a result or it throws an error message. -/
inductive SendOutcome where
  | delivered (r : MsgResult)
  | errorThrown (e : String)
deriving DecidableEq, Repr

/-- messageTask.execute: invoke sendMessage; on an error whose message
contains markedUnread, swallow it and store the placeholder result; any
other error propagates to the drain loop. -/
def executeTask (o : SendOutcome) (nowTs : Nat) : Except String MsgResult :=
  match o with
  | .delivered r => .ok r
  | .errorThrown e =>
      if strContains e "markedUnread" then .ok (maskedPlaceholder nowTs)
      else .error e

/-- Externally visible actions of the queue and route machinery: a
sendMessage invocation, a resolve or reject of a task promise, a
recoverSession invocation, and an error surfaced to the HTTP caller. -/
inductive QueueAction where
  | send (chatId message : String)
  | taskResolved (r : MsgResult)
  | taskRejected (e : String)
  | recoverInvoked
  | httpError (e : String)
deriving DecidableEq, Repr

/-- Effect on the task promise of the drain loop settling calls: resolve
with the execute result on success, reject with the thrown error otherwise
(lines 129 and 131 of server.js), subject to settle-once promise semantics. -/
def settleTask (t : MessageTask) (ex : Except String MsgResult) : MessageTask :=
  match ex with
  | .ok r => { t with settlement := settleWith t.settlement (.success r) }
  | .error e => { t with settlement := settleWith t.settlement (.failure e) }

/-- The resolve or reject call the drain loop records for one execute
outcome. -/
def settleAction (ex : Except String MsgResult) : QueueAction :=
  match ex with
  | .ok r => .taskResolved r
  | .error e => .taskRejected e

/-- Drain loop of processMessageQueue. Each iteration shifts the head task;
if the client is absent or not initialized (`ready i = false`, re-read each
iteration since awaits interleave), the task is pushed back to the head and
the loop breaks. Otherwise execute() runs — which always invokes
sendMessage, there is no settlement check — and the promise is resolved or
rejected according to the execute outcome. Returns the remaining queue, the
processed tasks with their updated promise cells (in processing order), and
the action trace. -/
def processMessageQueue (ready : Nat → Bool) (outcome : Nat → SendOutcome)
    (clock : Nat → Nat) :
    List MessageTask → Nat → List MessageTask × List MessageTask × List QueueAction
  | [], _ => ([], [], [])
  | t :: rest, i =>
    if ready i then
      let tailRes := processMessageQueue ready outcome clock rest (i + 1)
      (tailRes.1,
        settleTask t (executeTask (outcome i) (clock i)) :: tailRes.2.1,
        QueueAction.send t.chatId t.message ::
          settleAction (executeTask (outcome i) (clock i)) :: tailRes.2.2)
    else (t :: rest, [], [])

/-- The sendMessage invocations recorded in an action trace, in order. -/
def sentMessages (as : List QueueAction) : List (String × String) :=
  as.filterMap fun a =>
    match a with
    | .send c m => some (c, m)
    | _ => none

/-- Number of recoverSession invocations recorded in an action trace. -/
def recoverCount (as : List QueueAction) : Nat :=
  as.countP fun a => match a with | .recoverInvoked => true | _ => false

/-- Number of reject calls recorded in an action trace. -/
def rejectCount (as : List QueueAction) : Nat :=
  as.countP fun a => match a with | .taskRejected _ => true | _ => false

/-- The externally owned automation client, as far as the supervisor reads
it: whether its puppeteer page handle is present and not closed. -/
structure ClientHandle where
  pupPageLive : Bool
deriving DecidableEq, Repr

/-- The module-level mutable state of server.js that the supervisor
components share. -/
structure ServerState where
  client : Option ClientHandle
  clientInitialized : Bool
  initializationAttempts : Nat
  sessionRestartInProgress : Bool
  lastHealthCheck : Option Nat
  messageQueue : List MessageTask
  processingQueue : Bool
deriving DecidableEq, Repr

/-- Handler of the ready event (lines 297-308 of server.js): marks the
client initialized, resets the attempt counter, and then starts the health
monitor and calls processMessageQueue on the same queue. -/
def readyHandler (s : ServerState) : ServerState :=
  { s with clientInitialized := true, initializationAttempts := 0 }

/-- checkSessionHealth (lines 32-44): false when the client is absent or
not initialized, otherwise whether the puppeteer page is live. -/
def checkSessionHealth (client : Option ClientHandle) (clientInitialized : Bool) : Bool :=
  match client with
  | none => false
  | some c => clientInitialized && c.pupPageLive

/-- Observable outcome of one health-monitor tick: the lastHealthCheck
value after the tick and the number of recoverSession invocations it made. -/
structure HealthTick where
  lastHealthCheck : Option Nat
  recoverCalls : Nat
deriving DecidableEq, Repr

/-- Body of the 30s interval armed by startSessionHealthMonitoring
(lines 52-64): return early when clientInitialized is false; otherwise
probe health, record the check time unconditionally, and call
recoverSession exactly once when the probe failed and no restart is in
progress. -/
def healthTickRun (client : Option ClientHandle) (clientInitialized : Bool)
    (restartInProgress : Bool) (prev : Option Nat) (nowTs : Nat) : HealthTick :=
  if clientInitialized = false then
    { lastHealthCheck := prev, recoverCalls := 0 }
  else
    { lastHealthCheck := some nowTs,
      recoverCalls :=
        if checkSessionHealth client clientInitialized = false ∧ restartInProgress = false
        then 1 else 0 }

/-- Outcome of the try block of recoverSession once it runs: either it
completes (with the result of the initialization call) or some awaited step
throws and control reaches the catch clause. -/
inductive RecoveryBody where
  | completed (initSuccess : Bool)
  | threw
deriving DecidableEq, Repr

/-- recoverSession (lines 68-108): if a restart is already in progress the
call is a no-op that runs no body; otherwise the guard flag is raised, the
body runs (teardown, discard, settle delay, re-create), and the finally
clause clears the flag whether the body completed or threw. Returns the
final guard flag and the body outcome when one ran. -/
def recoverSession (inProgress : Bool) (body : RecoveryBody) :
    Bool × Option RecoveryBody :=
  if inProgress then (inProgress, none)
  else (false, some body)

/-- JSON status shape returned by the manual-recovery route. -/
structure RouteStatus where
  status : Bool
  message : String
deriving DecidableEq, Repr

/-- POST /recover-session (lines 612-637): replies with status false and
takes no action when a recovery is already in progress; otherwise awaits
recoverSession and reports it initiated. Returns the reply and the guard
flag after the call. -/
def recoverSessionRoute (inProgress : Bool) (body : RecoveryBody) :
    RouteStatus × Bool :=
  if inProgress then
    ({ status := false, message := "Session recovery already in progress" }, inProgress)
  else
    ({ status := true, message := "Session recovery initiated" },
      (recoverSession inProgress body).1)

/-- Cap on consecutive automatic initialization attempts (line 24). -/
def maxInitAttempts : Nat := 3

/-- Observable outcome of one initializeWhatsAppClient call. -/
inductive InitCall where
  | alreadyInitialized
  | maxAttemptsReached
  | attemptSucceeded
  | attemptFailed (retryDelayMs : Option Nat)
deriving DecidableEq, Repr

/-- initializeWhatsAppClient (lines 267-383): immediately true when already
initialized; refuses without attempting once the attempt counter has
reached maxInitAttempts; otherwise increments the counter and attempts. On
failure it schedules a retry after 5000 * attemptNumber milliseconds only
while the counter is still below the cap. Returns the new counter and the
call outcome. -/
def initializeWhatsAppClient (clientInitialized : Bool) (attempts : Nat)
    (initSucceeds : Bool) : Nat × InitCall :=
  if clientInitialized then (attempts, .alreadyInitialized)
  else if maxInitAttempts ≤ attempts then (attempts, .maxAttemptsReached)
  else
    if initSucceeds then (attempts + 1, .attemptSucceeded)
    else
      (attempts + 1,
        .attemptFailed
          (if attempts + 1 < maxInitAttempts then some (5000 * (attempts + 1)) else none))

/-- State reset performed by POST /restart-client (lines 589-592) before it
re-invokes initialization: client discarded, flags and the attempt counter
re-armed to 0. -/
def restartClientReset (s : ServerState) : ServerState :=
  { s with client := none, clientInitialized := false, initializationAttempts := 0 }

/-- Session-fatal classification used by the /send-message catch clause
(line 482): the error message mentions a closed session or a protocol
error. -/
def sessionFatalError (e : String) : Bool :=
  strContains e "Session closed" || strContains e "Protocol error"

/-- Catch clause of POST /send-message around the queued send
(lines 480-502): a session-fatal rejection triggers recoverSession and then
one direct client.sendMessage retry of the same message when the client
came back initialized, or surfaces a failure otherwise; any other rejection
is rethrown and surfaces as an HTTP failure. -/
def sendMessageCatchHandler (e : String) (chatId message : String)
    (recoveredReady : Bool) : List QueueAction :=
  if sessionFatalError e then
    QueueAction.recoverInvoked ::
      (if recoveredReady then [QueueAction.send chatId message]
       else [QueueAction.httpError "Session recovery failed, cannot send message"])
  else [QueueAction.httpError e]

/-- Data object of the success reply of POST /send-message
(lines 510-520). -/
structure SendMessageData where
  messageId : Option String
  recipient : String
  timestamp : Nat
  sender : String
  msgType : String
deriving DecidableEq, Repr

/-- Success reply builder of POST /send-message: copies the id and
timestamp out of the settled send result, defaulting sender and type. -/
def sendMessageSuccessResponse (sentMessage : MsgResult) (formattedPhone : String)
    (sender : Option String) (msgType : Option String) : SendMessageData :=
  { messageId := sentMessage.id.id,
    recipient := formattedPhone,
    timestamp := sentMessage.timestamp,
    sender := sender.getD "System",
    msgType := msgType.getD "direct_message" }

/-- Error message of the session-fatal class as the puppeteer transport
reports it (see the troubleshooting guide of the repository). -/
def fatalErrMsg : String :=
  "Protocol error (Runtime.callFunctionOn): Session closed. Most likely the page has been closed."

/-- Concrete drain run with two pending tasks whose first dispatch fails
with the session-fatal error and whose second succeeds (with the masked
placeholder as its result). -/
def fatalDrainExample : List MessageTask × List MessageTask × List QueueAction :=
  processMessageQueue (fun _ => true)
    (fun i => if i = 0 then SendOutcome.errorThrown fatalErrMsg
              else SendOutcome.delivered (maskedPlaceholder 9))
    (fun _ => 9)
    [⟨"c1", "m1", 0, Settlement.pending⟩, ⟨"c2", "m2", 0, Settlement.pending⟩] 0

/-- Error message of the benign class masked by messageTask.execute. -/
def benignErrMsg : String :=
  "Evaluation failed: TypeError: markedUnread is not a function"

/-- Queue of five pending tasks, as in the clear-queue scenario. -/
def fiveTaskQueue : List MessageTask :=
  [⟨"q1@c.us", "m1", 0, Settlement.pending⟩,
   ⟨"q2@c.us", "m2", 1, Settlement.pending⟩,
   ⟨"q3@c.us", "m3", 2, Settlement.pending⟩,
   ⟨"q4@c.us", "m4", 3, Settlement.pending⟩,
   ⟨"q5@c.us", "m5", 4, Settlement.pending⟩]

/-- Task whose 120s deadline already elapsed while it waited in the queue:
the timer reject settled its promise with the timeout reason. -/
def timedOutTask : MessageTask :=
  ⟨"628555@c.us", "late message", 0, Settlement.failure "Message sending timeout"⟩

/-- POST /clear-queue (lines 655-666): snapshots the queue length as
clearedCount, empties the queue, clears the processing flag and replies;
it touches no task promise. Returns the new state, the cleared count and
the action trace of the operation (empty: no resolve or reject happens). -/
def clearQueueRoute (s : ServerState) : ServerState × Nat × List QueueAction :=
  ({ s with messageQueue := [], processingQueue := false },
    s.messageQueue.length, [])

theorem outcomeOf_ne_pending (ev : TaskEvent) : outcomeOf ev ≠ Settlement.pending := by
  cases ev <;> simp [outcomeOf]

theorem settleEvent_settled (s : Settlement) (h : s ≠ Settlement.pending)
    (ev : TaskEvent) : settleEvent s ev = s := by
  cases s with
  | pending => exact absurd rfl h
  | success r => rfl
  | failure e => rfl

theorem runEvents_settled (s : Settlement) (h : s ≠ Settlement.pending)
    (evs : List TaskEvent) : runEvents s evs = s := by
  induction evs with
  | nil => rfl
  | cons ev evs ih =>
      show runEvents (settleEvent s ev) evs = s
      rw [settleEvent_settled s h ev]
      exact ih

theorem settleCount_settled (s : Settlement) (h : s ≠ Settlement.pending)
    (evs : List TaskEvent) : settleCount s evs = 0 := by
  induction evs with
  | nil => cases s <;> rfl
  | cons ev evs ih =>
      cases s with
      | pending => exact absurd rfl h
      | success r => simpa [settleCount] using ih
      | failure e => simpa [settleCount] using ih

/-- C1: every task enqueued via queueMessage starts with a pending promise,
and for any nonempty sequence of settle attempts (dispatch success, explicit
dispatch failure, deadline expiry) delivered in any order, the promise ends
settled with the outcome of the first attempt — whichever occurs first wins
— and exactly one attempt changes the cell, so no double-settlement occurs
even when deadline expiry races dispatch completion. -/
theorem queueMessage_settles_exactly_once
    (chatId message : String) (nowTs : Nat) (q : List MessageTask)
    (ev : TaskEvent) (evs : List TaskEvent) :
    (queueMessage chatId message nowTs q).getLast? =
      some { chatId := chatId, message := message, timestamp := nowTs,
             settlement := Settlement.pending }
    ∧ runEvents Settlement.pending (ev :: evs) = outcomeOf ev
    ∧ runEvents Settlement.pending (ev :: evs) ≠ Settlement.pending
    ∧ settleCount Settlement.pending (ev :: evs) = 1 := by
  refine ⟨?_, ?_, ?_, ?_⟩
  · simp [queueMessage]
  · show runEvents (settleEvent Settlement.pending ev) evs = outcomeOf ev
    have : settleEvent Settlement.pending ev = outcomeOf ev := rfl
    rw [this]
    exact runEvents_settled _ (outcomeOf_ne_pending ev) evs
  · show runEvents (settleEvent Settlement.pending ev) evs ≠ Settlement.pending
    have : settleEvent Settlement.pending ev = outcomeOf ev := rfl
    rw [this, runEvents_settled _ (outcomeOf_ne_pending ev) evs]
    exact outcomeOf_ne_pending ev
  · show 1 + settleCount (outcomeOf ev) evs = 1
    rw [settleCount_settled _ (outcomeOf_ne_pending ev) evs]

theorem processMessageQueue_not_ready (ready : Nat → Bool) (outcome : Nat → SendOutcome)
    (clock : Nat → Nat) (q : List MessageTask) (i : Nat) (h : ready i = false) :
    processMessageQueue ready outcome clock q i = (q, [], []) := by
  cases q with
  | nil => rfl
  | cons t rest => simp [processMessageQueue, h]

theorem sentMessages_cons_send (c m : String) (as : List QueueAction) :
    sentMessages (QueueAction.send c m :: as) = (c, m) :: sentMessages as := rfl

theorem sentMessages_cons_settleAction (ex : Except String MsgResult)
    (as : List QueueAction) :
    sentMessages (settleAction ex :: as) = sentMessages as := by
  cases ex <;> rfl

theorem processMessageQueue_fifo (ready : Nat → Bool) (outcome : Nat → SendOutcome)
    (clock : Nat → Nat) (q : List MessageTask) (i : Nat) (h : ∀ j, ready j = true) :
    sentMessages (processMessageQueue ready outcome clock q i).2.2
      = q.map fun t => (t.chatId, t.message) := by
  induction q generalizing i with
  | nil => rfl
  | cons t rest ih =>
      simp only [processMessageQueue, h i, if_true, List.map_cons]
      rw [sentMessages_cons_send, sentMessages_cons_settleAction, ih (i + 1)]

theorem recoverCount_cons_send (c m : String) (as : List QueueAction) :
    recoverCount (QueueAction.send c m :: as) = recoverCount as := by
  simp [recoverCount, List.countP_cons]

theorem recoverCount_cons_settleAction (ex : Except String MsgResult)
    (as : List QueueAction) :
    recoverCount (settleAction ex :: as) = recoverCount as := by
  cases ex <;> simp [recoverCount, settleAction, List.countP_cons]

theorem processMessageQueue_no_recover (ready : Nat → Bool) (outcome : Nat → SendOutcome)
    (clock : Nat → Nat) (q : List MessageTask) (i : Nat) :
    recoverCount (processMessageQueue ready outcome clock q i).2.2 = 0 := by
  induction q generalizing i with
  | nil => rfl
  | cons t rest ih =>
      by_cases h : ready i = true
      · simp only [processMessageQueue, h, if_true]
        rw [recoverCount_cons_send, recoverCount_cons_settleAction, ih (i + 1)]
      · rw [processMessageQueue_not_ready ready outcome clock _ i (by simpa using h)]
        rfl

theorem rejectCount_cons_send (c m : String) (as : List QueueAction) :
    rejectCount (QueueAction.send c m :: as) = rejectCount as := by
  simp [rejectCount, List.countP_cons]

theorem rejectCount_cons_resolved (r : MsgResult) (as : List QueueAction) :
    rejectCount (QueueAction.taskResolved r :: as) = rejectCount as := by
  simp [rejectCount, List.countP_cons]

theorem rejectCount_benign (ready : Nat → Bool) (outcome : Nat → SendOutcome)
    (clock : Nat → Nat) (q : List MessageTask) (i : Nat)
    (hb : ∀ j, ∃ e, outcome j = SendOutcome.errorThrown e
      ∧ strContains e "markedUnread" = true) :
    rejectCount (processMessageQueue ready outcome clock q i).2.2 = 0 := by
  induction q generalizing i with
  | nil => rfl
  | cons t rest ih =>
      by_cases h : ready i = true
      · obtain ⟨e, he1, he2⟩ := hb i
        simp only [processMessageQueue, h, if_true]
        rw [rejectCount_cons_send, he1]
        show rejectCount (settleAction (executeTask (SendOutcome.errorThrown e) (clock i))
          :: _) = 0
        rw [show executeTask (SendOutcome.errorThrown e) (clock i)
              = Except.ok (maskedPlaceholder (clock i)) by simp [executeTask, he2]]
        rw [show settleAction (Except.ok (maskedPlaceholder (clock i)))
              = QueueAction.taskResolved (maskedPlaceholder (clock i)) from rfl]
        rw [rejectCount_cons_resolved, ih (i + 1)]
      · rw [processMessageQueue_not_ready ready outcome clock _ i (by simpa using h)]
        rfl

/-- C2: while the session is not ready the drain loop performs no dispatch
and leaves the queue intact with the head task still at the head (so tasks
enqueued while not ready wait); the ready handler marks the session
initialized (and re-runs the drain); and when the session is ready
throughout, the drain dispatches the queued tasks exactly in FIFO insertion
order. -/
theorem queue_stalls_until_ready_then_fifo
    (ready : Nat → Bool) (outcome : Nat → SendOutcome) (clock : Nat → Nat)
    (q : List MessageTask) (i : Nat) (s : ServerState) :
    (ready i = false → processMessageQueue ready outcome clock q i = (q, [], []))
    ∧ ((∀ j, ready j = true) →
        sentMessages (processMessageQueue ready outcome clock q i).2.2
          = q.map fun t => (t.chatId, t.message))
    ∧ (readyHandler s).clientInitialized = true
    ∧ (readyHandler s).messageQueue = s.messageQueue := by
  refine ⟨fun h => processMessageQueue_not_ready ready outcome clock q i h,
    fun h => processMessageQueue_fifo ready outcome clock q i h, rfl, rfl⟩

/-- Witness for C2 at a concrete queue: a stalled drain keeps the task and
sends nothing; a ready drain sends the two tasks in insertion order. -/
theorem queue_stalls_until_ready_then_fifo_witness :
    processMessageQueue (fun _ => false) (fun _ => SendOutcome.delivered (maskedPlaceholder 5))
        (fun _ => 5) [⟨"628111@c.us", "hello", 0, Settlement.pending⟩] 0
      = ([⟨"628111@c.us", "hello", 0, Settlement.pending⟩], [], [])
    ∧ sentMessages (processMessageQueue (fun _ => true)
        (fun _ => SendOutcome.delivered (maskedPlaceholder 5)) (fun _ => 5)
        [⟨"628111@c.us", "hello", 0, Settlement.pending⟩,
         ⟨"628222@c.us", "second", 1, Settlement.pending⟩] 0).2.2
      = [("628111@c.us", "hello"), ("628222@c.us", "second")] := by
  constructor
  · exact (queue_stalls_until_ready_then_fifo (fun _ => false)
      (fun _ => SendOutcome.delivered (maskedPlaceholder 5)) (fun _ => 5)
      [⟨"628111@c.us", "hello", 0, Settlement.pending⟩] 0
      ⟨none, false, 0, false, none, [], false⟩).1 rfl
  · have h := (queue_stalls_until_ready_then_fifo (fun _ => true)
      (fun _ => SendOutcome.delivered (maskedPlaceholder 5)) (fun _ => 5)
      [⟨"628111@c.us", "hello", 0, Settlement.pending⟩,
       ⟨"628222@c.us", "second", 1, Settlement.pending⟩] 0
      ⟨none, false, 0, false, none, [], false⟩).2.1 (fun _ => rfl)
    simpa using h

set_option maxRecDepth 20000 in
/-- C3 counterexample: a session-fatal dispatch failure at the queue head.
The drain loop settles the task as failed and simply continues — the second
task is dispatched — while its action trace contains zero recoverSession
invocations, refuting "exactly one recovery invocation is triggered before
draining continues". The claim is also wrong that the failed send is not
automatically retried: the /send-message catch clause retries it once via a
direct sendMessage (the conjunct on sendMessageCatchHandler shows the retry
action). -/
theorem fatal_dispatch_recovery_counterexample :
    sessionFatalError fatalErrMsg = true
    ∧ recoverCount fatalDrainExample.2.2 = 0
    ∧ (fatalDrainExample.2.1.map fun t => t.settlement)
        = [Settlement.failure fatalErrMsg, Settlement.success (maskedPlaceholder 9)]
    ∧ sentMessages fatalDrainExample.2.2 = [("c1", "m1"), ("c2", "m2")]
    ∧ sendMessageCatchHandler fatalErrMsg "c1" "m1" true
        = [QueueAction.recoverInvoked, QueueAction.send "c1" "m1"] := by decide

/-- C3 amended: on a session-fatal dispatch failure the task in flight is
settled as failed and subsequent queued tasks are unaffected (the drain of
the rest proceeds exactly as it would alone, and the failed task is not
re-enqueued); the drain loop itself triggers no recovery at all; the
recovery is instead triggered by the awaiting /send-message caller, whose
catch clause invokes recoverSession exactly once and then retries the same
message once via a direct sendMessage when the client comes back
initialized. -/
theorem fatal_dispatch_failure_behavior (ready : Nat → Bool) (outcome : Nat → SendOutcome)
    (clock : Nat → Nat) (t : MessageTask) (rest : List MessageTask) (i : Nat)
    (e : String) (c m : String)
    (hr : ready i = true)
    (ho : outcome i = SendOutcome.errorThrown e)
    (hb : strContains e "markedUnread" = false)
    (hf : sessionFatalError e = true)
    (ht : t.settlement = Settlement.pending) :
    processMessageQueue ready outcome clock (t :: rest) i
      = ((processMessageQueue ready outcome clock rest (i + 1)).1,
         { t with settlement := Settlement.failure e }
           :: (processMessageQueue ready outcome clock rest (i + 1)).2.1,
         QueueAction.send t.chatId t.message :: QueueAction.taskRejected e
           :: (processMessageQueue ready outcome clock rest (i + 1)).2.2)
    ∧ (∀ q' i', recoverCount (processMessageQueue ready outcome clock q' i').2.2 = 0)
    ∧ recoverCount (sendMessageCatchHandler e c m true) = 1
    ∧ sendMessageCatchHandler e c m true
        = [QueueAction.recoverInvoked, QueueAction.send c m] := by
  have hex : executeTask (outcome i) (clock i) = Except.error e := by
    rw [ho]; simp [executeTask, hb]
  refine ⟨?_, fun q' i' => processMessageQueue_no_recover ready outcome clock q' i', ?_, ?_⟩
  · simp only [processMessageQueue, hr, if_true, hex, settleTask, settleAction, ht,
      settleWith]
  · simp [sendMessageCatchHandler, hf, recoverCount, List.countP_cons]
  · simp [sendMessageCatchHandler, hf]

/-- C4: a recovery request while one is in flight is a no-op — recoverSession
runs no body and the manual route replies with status false — and whenever
recoverSession actually runs, the guard flag is back to false afterwards,
whether the body completed or threw, so the coordinator always returns to
Idle and future requests are not blocked. -/
theorem recovery_single_flight (b b' : RecoveryBody) :
    recoverSession true b = (true, none)
    ∧ (recoverSessionRoute true b).1
        = { status := false, message := "Session recovery already in progress" }
    ∧ (recoverSession false b').1 = false
    ∧ (recoverSession false RecoveryBody.threw).1 = false
    ∧ (recoverSessionRoute false b').2 = false := by
  exact ⟨rfl, rfl, rfl, rfl, rfl⟩

/-- C5 counterexample: a task whose deadline already settled its promise as
a timeout failure is still dispatched once it reaches the queue head — the
drain trace contains its sendMessage invocation — so the dispatch path does
not check settlement state and settled tasks are not discarded. The first
conjunct confirms the deadline-expiry settlement itself. -/
theorem settled_task_still_dispatched_counterexample :
    deadlineExpire Settlement.pending = Settlement.failure "Message sending timeout"
    ∧ timedOutTask.settlement = Settlement.failure "Message sending timeout"
    ∧ sentMessages (processMessageQueue (fun _ => true)
        (fun _ => SendOutcome.delivered (maskedPlaceholder 3)) (fun _ => 3)
        [timedOutTask] 0).2.2
      = [("628555@c.us", "late message")] := by decide

/-- C5 amended: if a deadline elapses before dispatch, the timer settles a
pending promise as failed with the timeout reason; a task already settled
keeps its settlement through any later settle attempt (promise semantics),
but when it reaches the queue head the dispatch path performs no settlement
check — sendMessage is still invoked for it, and only the subsequent
resolve/reject is a no-op. -/
theorem deadline_expiry_then_dispatch
    (o : Settlement) (t : MessageTask) (ht : t.settlement ≠ Settlement.pending)
    (ready : Nat → Bool) (outcome : Nat → SendOutcome) (clock : Nat → Nat)
    (rest : List MessageTask) (i : Nat) (hr : ready i = true) :
    deadlineExpire Settlement.pending = Settlement.failure "Message sending timeout"
    ∧ settleWith t.settlement o = t.settlement
    ∧ (settleTask t (executeTask (outcome i) (clock i))).settlement = t.settlement
    ∧ sentMessages (processMessageQueue ready outcome clock (t :: rest) i).2.2
        = (t.chatId, t.message)
            :: sentMessages (processMessageQueue ready outcome clock rest (i + 1)).2.2 := by
  have hsw : ∀ o' : Settlement, settleWith t.settlement o' = t.settlement := by
    intro o'
    cases h : t.settlement with
    | pending => exact absurd h ht
    | success r => rfl
    | failure e => rfl
  refine ⟨rfl, hsw o, ?_, ?_⟩
  · cases executeTask (outcome i) (clock i) with
    | ok r => simpa [settleTask] using hsw (Settlement.success r)
    | error e => simpa [settleTask] using hsw (Settlement.failure e)
  · simp only [processMessageQueue, hr, if_true]
    rw [sentMessages_cons_send, sentMessages_cons_settleAction]

/-- Witness for C5 amended at the concrete timed-out task. -/
theorem deadline_expiry_then_dispatch_witness :
    settleWith timedOutTask.settlement (Settlement.success (maskedPlaceholder 3))
      = timedOutTask.settlement
    ∧ sentMessages (processMessageQueue (fun _ => true)
        (fun _ => SendOutcome.delivered (maskedPlaceholder 3)) (fun _ => 3)
        [timedOutTask] 0).2.2
      = (timedOutTask.chatId, timedOutTask.message) :: sentMessages [] := by
  have h := deadline_expiry_then_dispatch (Settlement.success (maskedPlaceholder 3))
    timedOutTask (by decide) (fun _ => true)
    (fun _ => SendOutcome.delivered (maskedPlaceholder 3)) (fun _ => 3) [] 0 rfl
  exact ⟨h.2.1, h.2.2.2⟩

/-- C6: failed initializations are bounded at maxInitAttempts = 3
consecutive attempts with linear backoff — the first failure schedules a
retry in 5000 ms, the second in 10000 ms, the third schedules none — any
call once the counter reached the cap attempts nothing, and the manual
restart route re-arms the counter to 0 with the client discarded. -/
theorem init_retry_policy (n : Nat) (hn : maxInitAttempts ≤ n) (b : Bool)
    (s : ServerState) :
    initializeWhatsAppClient false 0 false = (1, InitCall.attemptFailed (some 5000))
    ∧ initializeWhatsAppClient false 1 false = (2, InitCall.attemptFailed (some 10000))
    ∧ initializeWhatsAppClient false 2 false = (3, InitCall.attemptFailed none)
    ∧ initializeWhatsAppClient false n b = (n, InitCall.maxAttemptsReached)
    ∧ (restartClientReset s).initializationAttempts = 0
    ∧ (restartClientReset s).clientInitialized = false := by
  refine ⟨by decide, by decide, by decide, ?_, rfl, rfl⟩
  simp [initializeWhatsAppClient, hn]

/-- Witness for C6 at the exhausted counter: a fourth automatic call
attempts nothing. -/
theorem init_retry_policy_witness :
    initializeWhatsAppClient false 3 false = (3, InitCall.maxAttemptsReached)
    ∧ (restartClientReset ⟨none, false, 3, false, none, [], false⟩).initializationAttempts
        = 0 := by
  have h := init_retry_policy 3 (by decide) false ⟨none, false, 3, false, none, [], false⟩
  exact ⟨h.2.2.2.1, h.2.2.2.2.1⟩

/-- C7: a dispatch failure whose error message contains markedUnread is
masked — execute swallows it and stores the placeholder result, the drain
then settles a pending task successfully — and in a drain where every send
hits only that error class, no reject call ever appears in the trace, so
the caller never observes a task failure. -/
theorem benign_error_never_fails_task
    (e : String) (he : strContains e "markedUnread" = true)
    (t : MessageTask) (ht : t.settlement = Settlement.pending) (nowTs : Nat)
    (ready : Nat → Bool) (outcome : Nat → SendOutcome) (clock : Nat → Nat)
    (q : List MessageTask) (i : Nat)
    (hb : ∀ j, ∃ eb, outcome j = SendOutcome.errorThrown eb
      ∧ strContains eb "markedUnread" = true) :
    executeTask (SendOutcome.errorThrown e) nowTs = Except.ok (maskedPlaceholder nowTs)
    ∧ (settleTask t (executeTask (SendOutcome.errorThrown e) nowTs)).settlement
        = Settlement.success (maskedPlaceholder nowTs)
    ∧ rejectCount (processMessageQueue ready outcome clock q i).2.2 = 0 := by
  have hex : executeTask (SendOutcome.errorThrown e) nowTs
      = Except.ok (maskedPlaceholder nowTs) := by simp [executeTask, he]
  refine ⟨hex, ?_, rejectCount_benign ready outcome clock q i hb⟩
  rw [hex]
  simp [settleTask, ht, settleWith]

set_option maxRecDepth 20000 in
/-- Witness for C3 amended at a one-task queue failing with the concrete
session-fatal error. -/
theorem fatal_dispatch_failure_behavior_witness :
    recoverCount (sendMessageCatchHandler fatalErrMsg "c1" "m1" true) = 1
    ∧ processMessageQueue (fun _ => true) (fun _ => SendOutcome.errorThrown fatalErrMsg)
        (fun _ => 9) [⟨"c1", "m1", 0, Settlement.pending⟩] 0
      = ([], [⟨"c1", "m1", 0, Settlement.failure fatalErrMsg⟩],
         [QueueAction.send "c1" "m1", QueueAction.taskRejected fatalErrMsg]) := by
  have h := fatal_dispatch_failure_behavior (fun _ => true)
    (fun _ => SendOutcome.errorThrown fatalErrMsg) (fun _ => 9)
    ⟨"c1", "m1", 0, Settlement.pending⟩ [] 0 fatalErrMsg "c1" "m1"
    rfl rfl (by decide) (by decide) rfl
  refine ⟨h.2.2.1, ?_⟩
  rw [h.1]
  rfl

set_option maxRecDepth 20000 in
/-- Witness for C7 at a one-task queue hitting the concrete benign error. -/
theorem benign_error_never_fails_task_witness :
    executeTask (SendOutcome.errorThrown benignErrMsg) 7 = Except.ok (maskedPlaceholder 7)
    ∧ rejectCount (processMessageQueue (fun _ => true)
        (fun _ => SendOutcome.errorThrown benignErrMsg) (fun _ => 7)
        [⟨"c7@c.us", "m7", 0, Settlement.pending⟩] 0).2.2 = 0 := by
  have h := benign_error_never_fails_task benignErrMsg (by decide)
    ⟨"c7@c.us", "m7", 0, Settlement.pending⟩ rfl 7
    (fun _ => true) (fun _ => SendOutcome.errorThrown benignErrMsg) (fun _ => 7)
    [⟨"c7@c.us", "m7", 0, Settlement.pending⟩] 0
    (fun _ => ⟨benignErrMsg, rfl, by decide⟩)
  exact ⟨h.1, h.2.2⟩

/-- C8: a health-monitor tick with the initialized flag down does nothing —
it neither updates lastHealthCheck nor invokes recovery (so a
never-initialized session is skipped entirely); with the flag up it records
lastHealthCheck unconditionally — for every client, whether the probe
passes or fails; a failed probe with no restart in progress invokes
recoverSession exactly once in that tick; a passed probe invokes none; and
a failed probe during a restart also invokes none. -/
theorem health_tick_behavior
    (client : Option ClientHandle) (prev : Option Nat) (nowTs : Nat)
    (restartInProgress : Bool) :
    healthTickRun client false restartInProgress prev nowTs
      = { lastHealthCheck := prev, recoverCalls := 0 }
    ∧ (healthTickRun client true restartInProgress prev nowTs).lastHealthCheck
        = some nowTs
    ∧ (checkSessionHealth client true = false →
        (healthTickRun client true false prev nowTs).recoverCalls = 1)
    ∧ (checkSessionHealth client true = true →
        (healthTickRun client true restartInProgress prev nowTs).recoverCalls = 0)
    ∧ (healthTickRun client true true prev nowTs).recoverCalls = 0 := by
  refine ⟨rfl, ?_, ?_, ?_, ?_⟩
  · simp [healthTickRun]
  · intro hc
    simp [healthTickRun, hc]
  · intro hc
    simp [healthTickRun, hc]
  · simp [healthTickRun]

/-- Witness for C8 at an absent client handle (a failed probe) and at a
live one (a passed probe): the check time is recorded in both cases, the
failed probe recovers once, the passed probe recovers not at all. -/
theorem health_tick_behavior_witness :
    healthTickRun none false false none 42 = { lastHealthCheck := none, recoverCalls := 0 }
    ∧ (healthTickRun none true false none 42).lastHealthCheck = some 42
    ∧ (healthTickRun (some ⟨true⟩) true false none 43).lastHealthCheck = some 43
    ∧ (healthTickRun none true false none 42).recoverCalls = 1
    ∧ (healthTickRun (some ⟨true⟩) true false none 43).recoverCalls = 0 := by
  have hfail := health_tick_behavior none none 42 false
  have hpass := health_tick_behavior (some ⟨true⟩) none 43 false
  exact ⟨hfail.1, hfail.2.1, hpass.2.1, hfail.2.2.1 rfl, hpass.2.2.2.1 rfl⟩

/-- C9: the clear-queue route reports a cleared count equal to the number
of tasks pending at the moment of the clear, empties the queue, clears the
processing flag, performs no resolve or reject (its action trace is empty),
and each still-pending task settles only later, through its own deadline
timer rejecting with the timeout reason. -/
theorem clearQueue_clears_without_settling (s : ServerState) :
    (clearQueueRoute s).2.1 = s.messageQueue.length
    ∧ (clearQueueRoute s).1.messageQueue = []
    ∧ (clearQueueRoute s).1.processingQueue = false
    ∧ (clearQueueRoute s).2.2 = []
    ∧ (∀ t ∈ s.messageQueue, t.settlement = Settlement.pending →
        deadlineExpire t.settlement = Settlement.failure "Message sending timeout") := by
  refine ⟨rfl, rfl, rfl, rfl, ?_⟩
  intro t _ ht
  rw [ht]
  rfl

/-- Witness for C9 on the concrete queue of five pending tasks. -/
theorem clearQueue_clears_without_settling_witness :
    (clearQueueRoute ⟨none, true, 0, false, none, fiveTaskQueue, true⟩).2.1 = 5
    ∧ deadlineExpire (⟨"q1@c.us", "m1", 0, Settlement.pending⟩ : MessageTask).settlement
        = Settlement.failure "Message sending timeout" := by
  have h := clearQueue_clears_without_settling
    ⟨none, true, 0, false, none, fiveTaskQueue, true⟩
  refine ⟨by rw [h.1]; rfl, ?_⟩
  exact h.2.2.2.2 ⟨"q1@c.us", "m1", 0, Settlement.pending⟩ (by decide) rfl

/-- C10: masking the benign markedUnread error synthesizes exactly the
placeholder with a null id and the local clock value as timestamp, so the
success reply of /send-message for such a masked send carries messageId
none and the locally generated timestamp, not a delivery receipt of the
library. -/
theorem masked_send_http_response
    (e : String) (he : strContains e "markedUnread" = true)
    (nowTs : Nat) (ph : String) (sender msgType : Option String) :
    executeTask (SendOutcome.errorThrown e) nowTs = Except.ok (maskedPlaceholder nowTs)
    ∧ maskedPlaceholder nowTs = { id := { id := none }, timestamp := nowTs }
    ∧ (sendMessageSuccessResponse (maskedPlaceholder nowTs) ph sender msgType).messageId
        = none
    ∧ (sendMessageSuccessResponse (maskedPlaceholder nowTs) ph sender msgType).timestamp
        = nowTs := by
  exact ⟨by simp [executeTask, he], rfl, rfl, rfl⟩

/-- Witness for C10 at the concrete benign error message. -/
theorem masked_send_http_response_witness :
    executeTask (SendOutcome.errorThrown benignErrMsg) 8 = Except.ok (maskedPlaceholder 8)
    ∧ (sendMessageSuccessResponse (maskedPlaceholder 8) "628111" none none).messageId
        = none := by
  have h := masked_send_http_response benignErrMsg (by decide) 8 "628111" none none
  exact ⟨h.1, h.2.2.1⟩

end WaApi
